import Mathlib

set_option maxRecDepth 16384

/-!
Verification development for the amnesia PDF subsystem.

The embedding covers `apps/amnesia-server/src/pdf/service.rs` (the actor that
owns the PDFium singleton and the document registry, plus the cloneable
service handle) and `apps/amnesia-server/src/pdf/svg_text.rs` (the pure SVG
text-layer generator).

Modelling conventions:
* Rust `String`/`&str` text content is modelled as `List Char`; registry keys
  stay `String`.
* Numeric coordinates (fields of the `TextLayer`/`TextItem` structs from the
  repository's `types.rs`, which is not part of the sources here) are
  modelled as exact rationals `Rat`.
* `HashMap` is modelled as an association list with replace-on-insert and
  remove-all semantics; observationally (lookup, contains, key set) this
  matches `std::collections::HashMap`.
* The external crates (`pdfium_render`, `html_escape`) and the repository's
  `parser.rs`/`types.rs` are not in the sources; their interfaces are
  modelled from the spec and marked as such below.
-/

/-! ## Characters, digits and number formatting -/

def strLit (s : String) : List Char := s.data

/-- Decimal digit character of `n % 10` (codepoints 48 to 57). -/
def digitChar (n : Nat) : Char := Char.ofNat (48 + n % 10)

/-- Fuel-driven most-significant-first decimal digit list. -/
def natDigitsCore : Nat → Nat → List Char → List Char
  | 0, _, acc => acc
  | fuel + 1, n, acc =>
    let d := digitChar (n % 10)
    let n2 := n / 10
    if n2 = 0 then d :: acc else natDigitsCore fuel n2 (d :: acc)

def natDigits (n : Nat) : List Char := natDigitsCore (n + 1) n []

def fmtInt (i : Int) : List Char :=
  if i < 0 then '-' :: natDigits i.natAbs else natDigits i.natAbs

/-- Modelled from the spec: Rust `{:.2}` fixed-point formatting (used by
`svg_text.rs` for coordinates); over the exact-rational model the value is
rounded to hundredths. -/
def round2 (q : Rat) : Int := ⌊q * 100 + 1 / 2⌋

def fmt2Mag (n : Nat) : List Char :=
  natDigits (n / 100) ++
    '.' :: (if n % 100 < 10 then '0' :: natDigits (n % 100) else natDigits (n % 100))

def fmt2 (q : Rat) : List Char :=
  if round2 q < 0 then '-' :: fmt2Mag (round2 q).natAbs else fmt2Mag (round2 q).natAbs

/-- Modelled from the spec: Rust `{}` display of a page dimension; exact for
the integral values the spec exercises (e.g. `612`, `792`), and falling back
to two decimals otherwise. -/
def fmtDisplay (q : Rat) : List Char :=
  if q.den = 1 then fmtInt q.num else fmt2 q

/-! ## Text layer data (from the repository's `types.rs`, via the spec) -/

/-- Modelled from the spec: per-character sub-position carried by a span;
`svg_text.rs` reads the fields `char` and `x`. -/
structure CharPosition where
  char : Char
  x : Rat
deriving DecidableEq

/-- Modelled from the spec: one positioned text span of a page's text layer
(`types.rs` is not among the sources; `svg_text.rs` reads `text`, `x`, `y`,
`font_size` and `char_positions`). -/
structure TextItem where
  text : List Char
  x : Rat
  y : Rat
  width : Rat
  height : Rat
  fontSize : Rat
  charPositions : Option (List CharPosition)

/-- Modelled from the spec: a page's text layer (page number, page size in
points, ordered spans). -/
structure TextLayer where
  page : Nat
  width : Rat
  height : Rat
  items : List TextItem

/-! ## `svg_text.rs` -/

/-- `sanitize_for_xml`: keep tab, newline, carriage return and every char at
or above space; drop the remaining control characters. -/
def sanitize_for_xml (t : List Char) : List Char :=
  t.filter (fun c => c == '\t' || c == '\n' || c == '\r' || decide (' ' ≤ c))

/-- Modelled from the spec: the external `html_escape::encode_text` escapes
the reserved markup characters ampersand, less-than and greater-than, and
leaves every other character unchanged. -/
def encodeTextChar (c : Char) : List Char :=
  if c = '&' then strLit "&amp;"
  else if c = '<' then strLit "&lt;"
  else if c = '>' then strLit "&gt;"
  else [c]

def encodeText (t : List Char) : List Char := t.flatMap encodeTextChar

/-- Rust `text.trim().is_empty()`: the span text is whitespace-only. -/
def trimEmpty (t : List Char) : Bool := t.all Char.isWhitespace

/-- Body of the per-item loop of `generate_svg`: skip whitespace-only spans,
otherwise sanitize, escape, and emit a text element at the approximated
baseline `y + font_size * 0.85`. -/
def textItemSvg (item : TextItem) : List Char :=
  if trimEmpty item.text then []
  else
    strLit "<text x=\"" ++ fmt2 item.x ++ strLit "\" y=\"" ++
      fmt2 (item.y + item.fontSize * (0.85 : Rat)) ++ strLit "\" font-size=\"" ++
      fmt2 item.fontSize ++ strLit "\">" ++
      encodeText (sanitize_for_xml item.text) ++ strLit "</text>"

def svgHeader (w h : Rat) : List Char :=
  strLit "<svg xmlns=\"http://www.w3.org/2000/svg\" viewBox=\"0 0 " ++ fmtDisplay w ++
    strLit " " ++ fmtDisplay h ++ strLit "\" preserveAspectRatio=\"none\">"

def svgStyle : List Char :=
  strLit "<style>text \x7b fill: transparent; user-select: text; cursor: text; \x7d</style>"

/-- `generate_svg` from `svg_text.rs`. -/
def generate_svg (tl : TextLayer) : List Char :=
  svgHeader tl.width tl.height ++ svgStyle ++ tl.items.flatMap textItemSvg ++ strLit "</svg>"

def svgStyleChars : List Char :=
  strLit "<style>text \x7b fill: transparent; user-select: text; cursor: text; \x7d tspan \x7b white-space: pre; \x7d</style>"

/-- Per-character tspan of `generate_svg_with_chars`: sanitize the single
character, skip it entirely if it was a control character, otherwise escape
it and position it at the character's own x. -/
def charTspan (cp : CharPosition) : List Char :=
  if sanitize_for_xml [cp.char] = [] then []
  else
    strLit "<tspan x=\"" ++ fmt2 cp.x ++ strLit "\">" ++
      encodeText (sanitize_for_xml [cp.char]) ++ strLit "</tspan>"

/-- Body of the per-item loop of `generate_svg_with_chars`: skip
whitespace-only spans; with character positions emit one tspan per character
inside a text element at the approximated baseline, otherwise fall back to
the simple text element. -/
def textItemSvgChars (item : TextItem) : List Char :=
  if trimEmpty item.text then []
  else
    match item.charPositions with
    | some cps =>
      strLit "<text y=\"" ++ fmt2 (item.y + item.fontSize * (0.85 : Rat)) ++
        strLit "\" font-size=\"" ++ fmt2 item.fontSize ++ strLit "\">" ++
        cps.flatMap charTspan ++ strLit "</text>"
    | none =>
      strLit "<text x=\"" ++ fmt2 item.x ++ strLit "\" y=\"" ++
        fmt2 (item.y + item.fontSize * (0.85 : Rat)) ++ strLit "\" font-size=\"" ++
        fmt2 item.fontSize ++ strLit "\">" ++
        encodeText (sanitize_for_xml item.text) ++ strLit "</text>"

/-- `generate_svg_with_chars` from `svg_text.rs`. -/
def generate_svg_with_chars (tl : TextLayer) : List Char :=
  svgHeader tl.width tl.height ++ svgStyleChars ++
    tl.items.flatMap textItemSvgChars ++ strLit "</svg>"

/-! ## `service.rs`: errors and resource-level data -/

/-- Modelled from the spec: the error type of the missing `parser.rs`.
`service.rs` itself constructs only `LoadError` (the "PDF {key} not loaded"
error); every other resource-level failure (parse error, page out of range,
render error) is represented by `OtherError`. -/
inductive PdfParseError where
  | LoadError (msg : String)
  | OtherError (msg : String)
deriving DecidableEq

/-- `PdfServiceError` from `service.rs`. -/
inductive PdfServiceError where
  | InitError (msg : String)
  | ActorStopped
  | SendError (msg : String)
  | RecvError (msg : String)
  | ParseError (e : PdfParseError)
deriving DecidableEq

/-- Modelled from the spec: the Derived Metadata (`ParsedPdf` from the missing
`types.rs`) — a lightweight summary computed at open time. -/
structure ParsedPdf where
  id : String
  pageCount : Nat
deriving DecidableEq

/-- Modelled from the spec: render parameters of a page-render job (the
struct lives in the missing `types.rs`; `service.rs` passes it through). -/
structure PageRenderRequest where
  page : Nat
deriving DecidableEq

/-- Modelled from the spec: page width/height pair. -/
structure PageDimensions where
  width : Rat
  height : Rat
deriving DecidableEq

/-- Modelled from the spec: one ranked search match location. -/
structure PdfSearchResult where
  page : Nat
  text : String
deriving DecidableEq

/-- Modelled from the spec: the library binding produced by one candidate of
the discovery chain (`pdfium_render`'s binding object, opaque here). -/
structure PdfiumBindings where
  libId : Nat
deriving DecidableEq

/-- The Resource Singleton: `Pdfium::new(bindings)`. -/
structure Pdfium where
  bindings : PdfiumBindings
deriving DecidableEq

/-- Modelled from the spec: an Open Handle (`PdfParser` from the missing
`parser.rs`). The parser is a black box behind the job contract, so each of
its operations is an opaque function field returning either a result or a
resource-level error; `parseResult` is the outcome of `parser.parse()` at
open time. -/
structure PdfParser where
  bookId : String
  pdfium : Pdfium
  parseResult : Except PdfParseError ParsedPdf
  renderPageFn : PageRenderRequest → Except PdfParseError (List Nat)
  renderThumbnailFn : Nat → Nat → Except PdfParseError (List Nat)
  getTextLayerFn : Nat → Except PdfParseError TextLayer
  searchFn : String → Nat → Except PdfParseError (List PdfSearchResult)
  getPageTextFn : Nat → Except PdfParseError String
  getPageDimensionsFn : Nat → Except PdfParseError PageDimensions

/-- Modelled from the spec: the process environment seen by the service —
what each library-binding candidate does (`Pdfium::bind_to_library` composed
with `pdfium_platform_library_name_at_path`, and `bind_to_system_library`),
and what the missing parser constructors `PdfParser::from_bytes_with_pdfium`
and `PdfParser::from_path_with_pdfium` return. -/
structure PdfEnv where
  bindAt : String → Except String PdfiumBindings
  bindSystem : Except String PdfiumBindings
  fromBytesWithPdfium : List Nat → String → Pdfium → Except PdfParseError PdfParser
  fromPathWithPdfium : String → String → Pdfium → Except PdfParseError PdfParser

/-! ## The registry maps

`std::collections::HashMap` modelled as an association list; `mapInsert`
replaces any previous binding of the key and `mapRemove` removes every
binding, so lookup, contains-key and the key set behave exactly like the
Rust map. -/

def mapGet {α : Type} : List (String × α) → String → Option α
  | [], _ => none
  | (k2, v) :: rest, k => if k2 = k then some v else mapGet rest k

def mapRemove {α : Type} : List (String × α) → String → List (String × α)
  | [], _ => []
  | (k2, v) :: rest, k => if k2 = k then mapRemove rest k else (k2, v) :: mapRemove rest k

def mapInsert {α : Type} (m : List (String × α)) (k : String) (v : α) : List (String × α) :=
  (k, v) :: mapRemove m k

def mapKeys {α : Type} (m : List (String × α)) : List String := m.map Prod.fst

/-! ## The actor -/

/-- `PdfActor` from `service.rs`: the owner of the Pdfium singleton and of the
two registry maps (Open Handles under `parsers`, Derived Metadata under
`pdfs`). The job queue is not a field here: the queue contents are passed to
`PdfActor.runJobs` as a list. -/
structure PdfActor where
  pdfium : Pdfium
  parsers : List (String × PdfParser)
  pdfs : List (String × ParsedPdf)

/-- The ordered library-binding fallback chain inside `PdfActor::new`:
local directory, then `/usr/lib`, then `/usr/local/lib`, then the
system-default lookup; the first successful bind wins. -/
def bindChain (env : PdfEnv) : Except String PdfiumBindings :=
  match env.bindAt "./" with
  | .ok b => .ok b
  | .error _ =>
    match env.bindAt "/usr/lib" with
    | .ok b => .ok b
    | .error _ =>
      match env.bindAt "/usr/local/lib" with
      | .ok b => .ok b
      | .error _ => env.bindSystem

/-- `PdfActor::new`: run the binding chain; on failure return
`InitError` (no actor is produced), on success create the Pdfium singleton
and the empty registry. -/
def PdfActor.new (env : PdfEnv) : Except PdfServiceError PdfActor :=
  match bindChain env with
  | .error e => .error (.InitError e)
  | .ok b => .ok { pdfium := { bindings := b }, parsers := [], pdfs := [] }

/-- `PdfActor::handle_parse_from_bytes`: construct the parser, parse it, and
only then store both the parser and its metadata under the key (replacing
any previous entry); on any failure the state is returned unchanged. -/
def PdfActor.handle_parse_from_bytes (s : PdfActor) (env : PdfEnv) (data : List Nat)
    (bookId : String) : PdfActor × Except PdfParseError ParsedPdf :=
  match env.fromBytesWithPdfium data bookId s.pdfium with
  | .error e => (s, .error e)
  | .ok p =>
    match p.parseResult with
    | .error e => (s, .error e)
    | .ok pdf =>
      ({ s with parsers := mapInsert s.parsers bookId p,
                pdfs := mapInsert s.pdfs bookId pdf }, .ok pdf)

/-- `PdfActor::handle_parse_from_path` (same shape as the bytes variant). -/
def PdfActor.handle_parse_from_path (s : PdfActor) (env : PdfEnv) (path : String)
    (bookId : String) : PdfActor × Except PdfParseError ParsedPdf :=
  match env.fromPathWithPdfium path bookId s.pdfium with
  | .error e => (s, .error e)
  | .ok p =>
    match p.parseResult with
    | .error e => (s, .error e)
    | .ok pdf =>
      ({ s with parsers := mapInsert s.parsers bookId p,
                pdfs := mapInsert s.pdfs bookId pdf }, .ok pdf)

/-- The "PDF {book_id} not loaded" error of the data-returning handlers. -/
def notLoadedErr (bookId : String) : PdfParseError :=
  .LoadError ("PDF " ++ bookId ++ " not loaded")

/-- `PdfActor::handle_render_page`. -/
def PdfActor.handle_render_page (s : PdfActor) (bookId : String)
    (request : PageRenderRequest) : Except PdfParseError (List Nat) :=
  match mapGet s.parsers bookId with
  | none => .error (notLoadedErr bookId)
  | some p => p.renderPageFn request

/-- `PdfActor::handle_render_thumbnail`. -/
def PdfActor.handle_render_thumbnail (s : PdfActor) (bookId : String) (page : Nat)
    (maxSize : Nat) : Except PdfParseError (List Nat) :=
  match mapGet s.parsers bookId with
  | none => .error (notLoadedErr bookId)
  | some p => p.renderThumbnailFn page maxSize

/-- `PdfActor::handle_get_text_layer`. -/
def PdfActor.handle_get_text_layer (s : PdfActor) (bookId : String) (page : Nat) :
    Except PdfParseError TextLayer :=
  match mapGet s.parsers bookId with
  | none => .error (notLoadedErr bookId)
  | some p => p.getTextLayerFn page

/-- `PdfActor::handle_search`. -/
def PdfActor.handle_search (s : PdfActor) (bookId : String) (query : String)
    (limit : Nat) : Except PdfParseError (List PdfSearchResult) :=
  match mapGet s.parsers bookId with
  | none => .error (notLoadedErr bookId)
  | some p => p.searchFn query limit

/-- `PdfActor::handle_get_page_text`. -/
def PdfActor.handle_get_page_text (s : PdfActor) (bookId : String) (page : Nat) :
    Except PdfParseError String :=
  match mapGet s.parsers bookId with
  | none => .error (notLoadedErr bookId)
  | some p => p.getPageTextFn page

/-- `PdfActor::handle_get_page_dimensions`. -/
def PdfActor.handle_get_page_dimensions (s : PdfActor) (bookId : String) (page : Nat) :
    Except PdfParseError PageDimensions :=
  match mapGet s.parsers bookId with
  | none => .error (notLoadedErr bookId)
  | some p => p.getPageDimensionsFn page

/-! ## Jobs, replies and the actor loop -/

/-- `PdfJob` from `service.rs`, without the one-shot reply channels: the
reply a job would carry is modelled as the `PdfReply` produced by `step`. -/
inductive PdfJob where
  | parseFromBytes (data : List Nat) (bookId : String)
  | parseFromPath (path : String) (bookId : String)
  | renderPage (bookId : String) (request : PageRenderRequest)
  | renderThumbnail (bookId : String) (page : Nat) (maxSize : Nat)
  | getTextLayer (bookId : String) (page : Nat)
  | search (bookId : String) (query : String) (limit : Nat)
  | getPageText (bookId : String) (page : Nat)
  | getPageDimensions (bookId : String) (page : Nat)
  | hasPdf (bookId : String)
  | removePdf (bookId : String)
  | listPdfs
  | shutdown
deriving DecidableEq

/-- The value the actor sends back over a job's one-shot reply channel. -/
inductive PdfReply where
  | parsed (r : Except PdfParseError ParsedPdf)
  | bytes (r : Except PdfParseError (List Nat))
  | textLayer (r : Except PdfParseError TextLayer)
  | searchResults (r : Except PdfParseError (List PdfSearchResult))
  | pageText (r : Except PdfParseError String)
  | dims (r : Except PdfParseError PageDimensions)
  | boolean (b : Bool)
  | unit
  | ids (l : List String)

/-- One iteration of the `match job` dispatch in `PdfActor::run`: the new
actor state, the reply sent over the job's channel, and whether the loop
keeps running (`false` exactly for `Shutdown`, which acknowledges first and
then breaks). -/
def PdfActor.step (env : PdfEnv) (s : PdfActor) : PdfJob → PdfActor × PdfReply × Bool
  | .parseFromBytes data bookId =>
    let r := s.handle_parse_from_bytes env data bookId
    (r.1, .parsed r.2, true)
  | .parseFromPath path bookId =>
    let r := s.handle_parse_from_path env path bookId
    (r.1, .parsed r.2, true)
  | .renderPage bookId request => (s, .bytes (s.handle_render_page bookId request), true)
  | .renderThumbnail bookId page maxSize =>
    (s, .bytes (s.handle_render_thumbnail bookId page maxSize), true)
  | .getTextLayer bookId page => (s, .textLayer (s.handle_get_text_layer bookId page), true)
  | .search bookId query limit => (s, .searchResults (s.handle_search bookId query limit), true)
  | .getPageText bookId page => (s, .pageText (s.handle_get_page_text bookId page), true)
  | .getPageDimensions bookId page =>
    (s, .dims (s.handle_get_page_dimensions bookId page), true)
  | .hasPdf bookId => (s, .boolean ((mapGet s.parsers bookId).isSome), true)
  | .removePdf bookId =>
    ({ s with parsers := mapRemove s.parsers bookId, pdfs := mapRemove s.pdfs bookId },
      .unit, true)
  | .listPdfs => (s, .ids (mapKeys s.parsers), true)
  | .shutdown => (s, .unit, false)

/-- `PdfActor::run`: pull jobs in FIFO order until either the queue is closed
(end of the list: all handles dropped) or a `Shutdown` job is dispatched;
returns the final state and the replies actually sent. -/
def PdfActor.runJobs (env : PdfEnv) (s : PdfActor) : List PdfJob → PdfActor × List PdfReply
  | [] => (s, [])
  | j :: rest =>
    let r := s.step env j
    if r.2.2 then
      let rr := PdfActor.runJobs env r.1 rest
      (rr.1, r.2.1 :: rr.2)
    else
      (r.1, [r.2.1])

/-! ## The service handle -/

/-- `PdfService` from `service.rs`: the cloneable handle; its only field in
the source is the job-queue sender, opaque here. -/
structure PdfService where
  deriving DecidableEq

/-- `PdfService::start`: the source spawns the actor thread (whose body runs
`PdfActor::new` and, on success, the loop) and then returns
`Ok(Self { job_tx })` unconditionally — a failure of `PdfActor::new` is only
logged inside the spawned thread and never reaches the caller of `start`. -/
def PdfService.start (env : PdfEnv) : Except PdfServiceError PdfService :=
  .ok {}

/-- Transport outcome of one service-handle call: whether the `send` to the
job queue succeeded, and — if it did — what (if anything) arrived on the
one-shot reply channel (`none`: the reply sender was dropped). -/
structure Transport (α : Type) where
  sendOk : Bool
  recv : Option α

/-- Common request/response plumbing of the data-returning handle methods:
send errors become `SendError`, a dropped reply channel becomes `RecvError`,
and a resource-level error inside a delivered reply becomes `ParseError`. -/
def serviceCall {α : Type} (t : Transport (Except PdfParseError α)) :
    Except PdfServiceError α :=
  if t.sendOk then
    match t.recv with
    | none => .error (.RecvError "channel closed")
    | some (.ok v) => .ok v
    | some (.error e) => .error (.ParseError e)
  else .error (.SendError "channel closed")

/-- Common plumbing of the handle methods whose reply carries no
resource-level result (`has_pdf`, `remove_pdf`, `list_pdfs`, `shutdown`):
only the two transport failure mappings apply. -/
def serviceCallPlain {α : Type} (t : Transport α) : Except PdfServiceError α :=
  if t.sendOk then
    match t.recv with
    | none => .error (.RecvError "channel closed")
    | some v => .ok v
  else .error (.SendError "channel closed")

/-- `PdfService::parse_from_bytes` (transport mapping). -/
def PdfService.parse_from_bytes (data : List Nat) (bookId : String)
    (t : Transport (Except PdfParseError ParsedPdf)) : Except PdfServiceError ParsedPdf :=
  serviceCall t

/-- `PdfService::parse_from_path` (transport mapping). -/
def PdfService.parse_from_path (path : String) (bookId : String)
    (t : Transport (Except PdfParseError ParsedPdf)) : Except PdfServiceError ParsedPdf :=
  serviceCall t

/-- `PdfService::render_page` (transport mapping). -/
def PdfService.render_page (bookId : String) (request : PageRenderRequest)
    (t : Transport (Except PdfParseError (List Nat))) : Except PdfServiceError (List Nat) :=
  serviceCall t

/-- `PdfService::render_thumbnail` (transport mapping). -/
def PdfService.render_thumbnail (bookId : String) (page : Nat) (maxSize : Nat)
    (t : Transport (Except PdfParseError (List Nat))) : Except PdfServiceError (List Nat) :=
  serviceCall t

/-- `PdfService::get_text_layer` (transport mapping). -/
def PdfService.get_text_layer (bookId : String) (page : Nat)
    (t : Transport (Except PdfParseError TextLayer)) : Except PdfServiceError TextLayer :=
  serviceCall t

/-- `PdfService::search` (transport mapping). -/
def PdfService.search (bookId : String) (query : String) (limit : Nat)
    (t : Transport (Except PdfParseError (List PdfSearchResult))) :
    Except PdfServiceError (List PdfSearchResult) :=
  serviceCall t

/-- `PdfService::get_page_text` (transport mapping). -/
def PdfService.get_page_text (bookId : String) (page : Nat)
    (t : Transport (Except PdfParseError String)) : Except PdfServiceError String :=
  serviceCall t

/-- `PdfService::get_page_dimensions` (transport mapping). -/
def PdfService.get_page_dimensions (bookId : String) (page : Nat)
    (t : Transport (Except PdfParseError PageDimensions)) :
    Except PdfServiceError PageDimensions :=
  serviceCall t

/-- `PdfService::has_pdf` (transport mapping; no resource-level layer). -/
def PdfService.has_pdf (bookId : String) (t : Transport Bool) :
    Except PdfServiceError Bool :=
  serviceCallPlain t

/-- `PdfService::remove_pdf` (transport mapping; no resource-level layer). -/
def PdfService.remove_pdf (bookId : String) (t : Transport Unit) :
    Except PdfServiceError Unit :=
  serviceCallPlain t

/-- `PdfService::list_pdfs` (transport mapping; no resource-level layer). -/
def PdfService.list_pdfs (t : Transport (List String)) :
    Except PdfServiceError (List String) :=
  serviceCallPlain t

/-- `PdfService::shutdown` (transport mapping; no resource-level layer). -/
def PdfService.shutdown (t : Transport Unit) : Except PdfServiceError Unit :=
  serviceCallPlain t

/-! ## Predicates used by the claims -/

/-- Every candidate of the library-binding fallback chain fails. -/
def allBindsFail (env : PdfEnv) : Prop :=
  (∃ e, env.bindAt "./" = .error e) ∧ (∃ e, env.bindAt "/usr/lib" = .error e) ∧
    (∃ e, env.bindAt "/usr/local/lib" = .error e) ∧ (∃ e, env.bindSystem = .error e)

/-- A transport-level failure: the job-queue send failed (queue closed), or
the one-shot reply channel was dropped before delivering a value. -/
def transportFailed {α : Type} (t : Transport α) : Prop :=
  t.sendOk = false ∨ t.recv = none

/-- The call surfaced the "actor unavailable" class of errors (`SendError` or
`RecvError`), as opposed to a resource-level `ParseError` or a success. -/
def actorUnavailable {α : Type} (r : Except PdfServiceError α) : Prop :=
  ∃ m, r = .error (.SendError m) ∨ r = .error (.RecvError m)

/-- The registry-consistency invariant: the Derived Metadata map and the Open
Handle map always hold exactly the same keys. -/
def regInv (s : PdfActor) : Prop :=
  ∀ k, (mapGet s.pdfs k).isSome = (mapGet s.parsers k).isSome

/-- The three characters `<`, `s`, `c` in a row: the prefix of `<script>`
that can never occur in generated markup (every generated tag starts with
`<svg`, `<style`, `<text`, `<tspan` or `</`). -/
def ltsc : List Char := ['<', 's', 'c']

/-- A string fragment that is safe to concatenate into generated markup:
it does not contain `<sc`, and its last two characters (where a boundary
match could start) do not contain `<`. -/
def safeStr (l : List Char) : Prop :=
  ¬ ltsc <:+: l ∧ '<' ∉ l.reverse.take 2

/-! ## Concrete instances used by witnesses and counterexamples -/

def pdfiumZero : Pdfium := { bindings := { libId := 0 } }

/-- A concrete parser behaviour: `pages` stands in for content-derived data,
so two opens with different content produce observably different handles. -/
def sampleParser (pages : Nat) (bookId : String) (pdfium : Pdfium) : PdfParser where
  bookId := bookId
  pdfium := pdfium
  parseResult := .ok { id := bookId, pageCount := pages }
  renderPageFn := fun _ => .ok [pages]
  renderThumbnailFn := fun _ _ => .ok [pages]
  getTextLayerFn := fun _ => .ok { page := 1, width := 612, height := 792, items := [] }
  searchFn := fun _ _ => .ok []
  getPageTextFn := fun _ => .ok ""
  getPageDimensionsFn := fun _ => .ok { width := 612, height := 792 }

/-- An environment in which the first binding candidate succeeds and every
open succeeds, with metadata derived from the content length. -/
def envOk : PdfEnv where
  bindAt := fun p => if p = "./" then .ok { libId := 0 } else .error "not found"
  bindSystem := .error "not found"
  fromBytesWithPdfium := fun data bookId pdfium => .ok (sampleParser data.length bookId pdfium)
  fromPathWithPdfium := fun path bookId pdfium => .ok (sampleParser path.length bookId pdfium)

/-- An environment in which every binding candidate fails and every open
fails. -/
def envAllBindsFail : PdfEnv where
  bindAt := fun _ => .error "lib not found"
  bindSystem := .error "lib not found"
  fromBytesWithPdfium := fun _ _ _ => .error (.OtherError "engine unavailable")
  fromPathWithPdfium := fun _ _ _ => .error (.OtherError "engine unavailable")

/-- The actor state `PdfActor::new` produces under `envOk`. -/
def actorEmpty : PdfActor := { pdfium := pdfiumZero, parsers := [], pdfs := [] }

def parserA : PdfParser := sampleParser 1 "k" pdfiumZero

/-- A state in which key `k` is already bound (to a one-page document). -/
def stateWithA : PdfActor :=
  { pdfium := pdfiumZero, parsers := [("k", parserA)],
    pdfs := [("k", { id := "k", pageCount := 1 })] }

/-- A concrete job sequence exercising open, queries, remove and shutdown. -/
def jobsSample : List PdfJob :=
  [.parseFromBytes [7] "a", .hasPdf "a", .listPdfs, .removePdf "a", .shutdown]

def helloItem : TextItem :=
  { text := strLit "Hello", x := 72, y := 72, width := 100, height := 12,
    fontSize := 12, charPositions := none }

/-- The spec's example layer: one `Hello` span at `(72, 72)` with font size
`12` on a `612 x 792` page. -/
def helloLayer : TextLayer :=
  { page := 1, width := 612, height := 792, items := [helloItem] }

def scriptItem : TextItem :=
  { text := strLit "<script>alert(1)</script>", x := 72, y := 72, width := 100,
    height := 12, fontSize := 12, charPositions := none }

def scriptLayer : TextLayer :=
  { page := 1, width := 612, height := 792, items := [scriptItem] }

/-- Character-level positions (including a control character that must be
dropped). -/
def charsCps : List CharPosition :=
  [{ char := 'H', x := 30 }, { char := Char.ofNat 7, x := 33 }, { char := 'i', x := 36 }]

/-- A span carrying character-level positions. -/
def charsItem : TextItem :=
  { text := strLit "Hi", x := 30, y := 40, width := 20, height := 10, fontSize := 10,
    charPositions := some charsCps }

def wsItem : TextItem :=
  { text := strLit "  ", x := 10, y := 10, width := 5, height := 5, fontSize := 10,
    charPositions := none }

/-! ## Lemmas about the registry maps -/

theorem mapGet_mapRemove_self {α : Type} (m : List (String × α)) (k : String) :
    mapGet (mapRemove m k) k = none := by
  induction m with
  | nil => rfl
  | cons p rest ih =>
    obtain ⟨k2, v⟩ := p
    by_cases h : k2 = k
    · simp only [mapRemove, if_pos h]
      exact ih
    · simp only [mapRemove, if_neg h, mapGet, if_neg h]
      exact ih

theorem mapGet_mapRemove_ne {α : Type} (m : List (String × α)) {k j : String}
    (h : j ≠ k) : mapGet (mapRemove m k) j = mapGet m j := by
  induction m with
  | nil => rfl
  | cons p rest ih =>
    obtain ⟨k2, v⟩ := p
    by_cases h2 : k2 = k
    · subst h2
      simp only [mapRemove, if_pos rfl, mapGet, if_neg (Ne.symm h)]
      exact ih
    · simp only [mapRemove, if_neg h2, mapGet]
      by_cases h3 : k2 = j
      · simp [if_pos h3]
      · simp only [if_neg h3]
        exact ih

theorem mapGet_mapInsert_self {α : Type} (m : List (String × α)) (k : String) (v : α) :
    mapGet (mapInsert m k v) k = some v := by
  simp [mapInsert, mapGet]

theorem mapGet_mapInsert_ne {α : Type} (m : List (String × α)) {k j : String} (v : α)
    (h : j ≠ k) : mapGet (mapInsert m k v) j = mapGet m j := by
  simp only [mapInsert, mapGet, if_neg (Ne.symm h)]
  exact mapGet_mapRemove_ne m h

theorem mapRemove_of_absent {α : Type} (m : List (String × α)) (k : String)
    (h : mapGet m k = none) : mapRemove m k = m := by
  induction m with
  | nil => rfl
  | cons p rest ih =>
    obtain ⟨k2, v⟩ := p
    by_cases h2 : k2 = k
    · rw [mapGet, if_pos h2] at h
      cases h
    · rw [mapGet, if_neg h2] at h
      rw [mapRemove, if_neg h2, ih h]

theorem mem_mapKeys_iff {α : Type} (m : List (String × α)) (k : String) :
    k ∈ mapKeys m ↔ (mapGet m k).isSome := by
  induction m with
  | nil => simp [mapKeys, mapGet]
  | cons p rest ih =>
    obtain ⟨k2, v⟩ := p
    by_cases h : k2 = k
    · subst h
      simp [mapKeys, mapGet]
    · simp only [mapKeys, List.map_cons, List.mem_cons, mapGet, if_neg h]
      constructor
      · intro h2
        rcases h2 with h2 | h2
        · exact absurd h2.symm h
        · exact (ih.mp h2)
      · intro h2
        exact Or.inr (ih.mpr h2)

/-! ## Lemmas about the actor loop -/

theorem step_continues (env : PdfEnv) (s : PdfActor) (j : PdfJob)
    (h : j ≠ PdfJob.shutdown) : (PdfActor.step env s j).2.2 = true := by
  cases j <;> first | rfl | exact absurd rfl h

theorem runJobs_nil (env : PdfEnv) (s : PdfActor) :
    PdfActor.runJobs env s [] = (s, []) := rfl

theorem runJobs_shutdown (env : PdfEnv) (s : PdfActor) (rest : List PdfJob) :
    PdfActor.runJobs env s (PdfJob.shutdown :: rest) = (s, [PdfReply.unit]) := rfl

theorem runJobs_cons_of_ne (env : PdfEnv) (s : PdfActor) (j : PdfJob)
    (rest : List PdfJob) (h : j ≠ PdfJob.shutdown) :
    PdfActor.runJobs env s (j :: rest) =
      ((PdfActor.runJobs env (PdfActor.step env s j).1 rest).1,
        (PdfActor.step env s j).2.1 ::
          (PdfActor.runJobs env (PdfActor.step env s j).1 rest).2) := by
  rw [PdfActor.runJobs]
  rw [if_pos (step_continues env s j h)]

/-! ## Preservation of the registry invariant -/

theorem regInv_handle_parse_from_bytes (env : PdfEnv) (s : PdfActor) (data : List Nat)
    (bookId : String) (h : regInv s) :
    regInv (s.handle_parse_from_bytes env data bookId).1 := by
  unfold PdfActor.handle_parse_from_bytes
  split
  · exact h
  · split
    · exact h
    · intro k
      by_cases hk : k = bookId
      · subst hk
        simp [mapGet_mapInsert_self]
      · show (mapGet (mapInsert s.pdfs bookId _) k).isSome =
          (mapGet (mapInsert s.parsers bookId _) k).isSome
        rw [mapGet_mapInsert_ne _ _ hk, mapGet_mapInsert_ne _ _ hk]
        exact h k

theorem regInv_handle_parse_from_path (env : PdfEnv) (s : PdfActor) (path : String)
    (bookId : String) (h : regInv s) :
    regInv (s.handle_parse_from_path env path bookId).1 := by
  unfold PdfActor.handle_parse_from_path
  split
  · exact h
  · split
    · exact h
    · intro k
      by_cases hk : k = bookId
      · subst hk
        simp [mapGet_mapInsert_self]
      · show (mapGet (mapInsert s.pdfs bookId _) k).isSome =
          (mapGet (mapInsert s.parsers bookId _) k).isSome
        rw [mapGet_mapInsert_ne _ _ hk, mapGet_mapInsert_ne _ _ hk]
        exact h k

theorem regInv_step (env : PdfEnv) (s : PdfActor) (j : PdfJob) (h : regInv s) :
    regInv (PdfActor.step env s j).1 := by
  cases j with
  | parseFromBytes data bookId => exact regInv_handle_parse_from_bytes env s data bookId h
  | parseFromPath path bookId => exact regInv_handle_parse_from_path env s path bookId h
  | removePdf bookId =>
    intro k
    by_cases hk : k = bookId
    · subst hk
      simp [PdfActor.step, mapGet_mapRemove_self]
    · simp only [PdfActor.step]
      rw [mapGet_mapRemove_ne _ hk, mapGet_mapRemove_ne _ hk]
      exact h k
  | renderPage bookId request => exact h
  | renderThumbnail bookId page maxSize => exact h
  | getTextLayer bookId page => exact h
  | search bookId query limit => exact h
  | getPageText bookId page => exact h
  | getPageDimensions bookId page => exact h
  | hasPdf bookId => exact h
  | listPdfs => exact h
  | shutdown => exact h

theorem regInv_runJobs (env : PdfEnv) (s : PdfActor) (jobs : List PdfJob)
    (h : regInv s) : regInv (PdfActor.runJobs env s jobs).1 := by
  induction jobs generalizing s with
  | nil => exact h
  | cons j rest ih =>
    rw [PdfActor.runJobs]
    by_cases hc : (PdfActor.step env s j).2.2 = true
    · rw [if_pos hc]
      exact ih _ (regInv_step env s j h)
    · rw [if_neg hc]
      exact regInv_step env s j h

/-! ## Infix helpers -/

theorem infix_append_drop_left {l s t : List Char} (h : l <:+: t) : l <:+: s ++ t :=
  h.trans (List.suffix_append s t).isInfix

theorem infix_append_drop_right {l s t : List Char} (h : l <:+: s) : l <:+: s ++ t :=
  h.trans (List.prefix_append s t).isInfix

theorem flatMap_infix_of_mem {α : Type} (f : α → List Char) {x : α} :
    ∀ {l : List α}, x ∈ l → f x <:+: l.flatMap f := by
  intro l
  induction l with
  | nil => intro h; cases h
  | cons a t ih =>
    intro h
    rw [List.flatMap_cons]
    rcases List.mem_cons.mp h with h1 | h1
    · subst h1
      exact infix_append_drop_right (List.infix_refl _)
    · exact infix_append_drop_left (ih h1)

/-- Decomposition of a three-character infix of a concatenation: the pattern
lies in one of the halves, or it straddles the boundary in one of the two
possible ways. -/
theorem infix3_append_cases (x y z : Char) (a : List Char) :
    ∀ b : List Char, [x, y, z] <:+: a ++ b →
      [x, y, z] <:+: a ∨ [x, y, z] <:+: b ∨ ([x] <:+ a ∧ [y, z] <+: b) ∨
        ([x, y] <:+ a ∧ [z] <+: b) := by
  induction a with
  | nil =>
    intro b h
    exact Or.inr (Or.inl h)
  | cons c a ih =>
    intro b h
    rcases List.infix_cons_iff.mp h with hpre | htail
    · obtain ⟨rfl, h2⟩ := List.cons_prefix_cons.mp hpre
      cases a with
      | nil => exact Or.inr (Or.inr (Or.inl ⟨List.suffix_refl [x], h2⟩))
      | cons d a2 =>
        obtain ⟨rfl, h3⟩ := List.cons_prefix_cons.mp h2
        cases a2 with
        | nil => exact Or.inr (Or.inr (Or.inr ⟨List.suffix_refl [x, y], h3⟩))
        | cons e a3 =>
          obtain ⟨rfl, _⟩ := List.cons_prefix_cons.mp h3
          exact Or.inl ⟨[], a3, by simp⟩
    · rcases ih b htail with h1 | h1 | ⟨h1, h2⟩ | ⟨h1, h2⟩
      · exact Or.inl (h1.trans (List.suffix_cons c a).isInfix)
      · exact Or.inr (Or.inl h1)
      · exact Or.inr (Or.inr (Or.inl ⟨h1.trans (List.suffix_cons c a), h2⟩))
      · exact Or.inr (Or.inr (Or.inr ⟨h1.trans (List.suffix_cons c a), h2⟩))

theorem mem_lastTwo_of_suffix1 {a : List Char} {x : Char} (h : [x] <:+ a) :
    x ∈ a.reverse.take 2 := by
  obtain ⟨t, rfl⟩ := h
  simp [List.reverse_append]

theorem mem_lastTwo_of_suffix2 {a : List Char} {x y : Char} (h : [x, y] <:+ a) :
    x ∈ a.reverse.take 2 := by
  obtain ⟨t, rfl⟩ := h
  simp [List.reverse_append]

theorem mem_take2_append {u v : List Char} {x : Char} (h : x ∈ (u ++ v).take 2) :
    x ∈ u.take 2 ∨ x ∈ v.take 2 := by
  rw [List.take_append_eq_append_take] at h
  rcases List.mem_append.mp h with h1 | h1
  · exact Or.inl h1
  · refine Or.inr ?_
    have h2 : v.take (2 - u.length) = (v.take 2).take (2 - u.length) := by
      rw [List.take_take]
      exact (congrArg v.take (Nat.min_eq_left (by omega))).symm
    rw [h2] at h1
    exact List.take_subset _ _ h1

/-! ## Safe markup fragments -/

theorem safeStr_nil : safeStr [] := by
  constructor <;> decide

theorem safeStr_append {a b : List Char} (ha : safeStr a) (hb : safeStr b) :
    safeStr (a ++ b) := by
  constructor
  · intro h
    rcases infix3_append_cases '<' 's' 'c' a b h with h1 | h1 | ⟨h1, _⟩ | ⟨h1, _⟩
    · exact ha.1 h1
    · exact hb.1 h1
    · exact ha.2 (mem_lastTwo_of_suffix1 h1)
    · exact ha.2 (mem_lastTwo_of_suffix2 h1)
  · intro h
    rw [List.reverse_append] at h
    rcases mem_take2_append h with h1 | h1
    · exact hb.2 h1
    · exact ha.2 h1

theorem safeStr_of_not_mem {l : List Char} (h : '<' ∉ l) : safeStr l := by
  constructor
  · intro hi
    exact h (hi.subset (show '<' ∈ ltsc by decide))
  · intro hm
    exact h (List.mem_reverse.mp (List.take_subset _ _ hm))

theorem safeStr_flatMap {α : Type} (f : α → List Char) (l : List α)
    (h : ∀ x ∈ l, safeStr (f x)) : safeStr (l.flatMap f) := by
  induction l with
  | nil => simpa using safeStr_nil
  | cons a t ih =>
    rw [List.flatMap_cons]
    exact safeStr_append (h a (by simp)) (ih fun x hx => h x (by simp [hx]))

/-! ## Generated fragments contain no stray angle bracket -/

theorem digitChar_ne_lt (n : Nat) : digitChar n ≠ '<' := by
  have h : n % 10 < 10 := Nat.mod_lt _ (by omega)
  unfold digitChar
  set k := n % 10 with hk
  interval_cases k <;> decide

theorem not_mem_natDigitsCore (fuel : Nat) :
    ∀ (n : Nat) (acc : List Char), '<' ∉ acc → '<' ∉ natDigitsCore fuel n acc := by
  induction fuel with
  | zero =>
    intro n acc h
    simpa [natDigitsCore] using h
  | succ fuel ih =>
    intro n acc h
    rw [natDigitsCore]
    split
    · intro hm
      rcases List.mem_cons.mp hm with h1 | h1
      · exact digitChar_ne_lt _ h1.symm
      · exact h h1
    · refine ih _ _ ?_
      intro hm
      rcases List.mem_cons.mp hm with h1 | h1
      · exact digitChar_ne_lt _ h1.symm
      · exact h h1

theorem not_mem_natDigits (n : Nat) : '<' ∉ natDigits n :=
  not_mem_natDigitsCore _ _ _ (by simp)

theorem not_mem_fmtInt (i : Int) : '<' ∉ fmtInt i := by
  unfold fmtInt
  split
  · intro h
    rcases List.mem_cons.mp h with h1 | h1
    · exact absurd h1 (by decide)
    · exact not_mem_natDigits _ h1
  · exact not_mem_natDigits _

theorem not_mem_fmt2Mag (n : Nat) : '<' ∉ fmt2Mag n := by
  unfold fmt2Mag
  intro h
  rcases List.mem_append.mp h with h1 | h1
  · exact not_mem_natDigits _ h1
  · rcases List.mem_cons.mp h1 with h2 | h2
    · exact absurd h2 (by decide)
    · split at h2
      · rcases List.mem_cons.mp h2 with h3 | h3
        · exact absurd h3 (by decide)
        · exact not_mem_natDigits _ h3
      · exact not_mem_natDigits _ h2

theorem not_mem_fmt2 (q : Rat) : '<' ∉ fmt2 q := by
  unfold fmt2
  split
  · intro h
    rcases List.mem_cons.mp h with h1 | h1
    · exact absurd h1 (by decide)
    · exact not_mem_fmt2Mag _ h1
  · exact not_mem_fmt2Mag _

theorem not_mem_fmtDisplay (q : Rat) : '<' ∉ fmtDisplay q := by
  unfold fmtDisplay
  split
  · exact not_mem_fmtInt _
  · exact not_mem_fmt2 _

theorem not_mem_encodeTextChar (c : Char) : '<' ∉ encodeTextChar c := by
  unfold encodeTextChar
  split
  · decide
  · split
    · decide
    · split
      · decide
      · rename_i hamp hlt hgt
        intro hm
        rcases List.mem_cons.mp hm with h4 | h4
        · exact hlt h4.symm
        · cases h4

theorem not_mem_encodeText (t : List Char) : '<' ∉ encodeText t := by
  unfold encodeText
  intro h
  obtain ⟨a, _, ha⟩ := List.mem_flatMap.mp h
  exact not_mem_encodeTextChar a ha

/-! ## The generators only produce safe markup -/

theorem safeStr_svgHeader (w h : Rat) : safeStr (svgHeader w h) := by
  unfold svgHeader
  refine safeStr_append (safeStr_append (safeStr_append (safeStr_append ?_
    (safeStr_of_not_mem (not_mem_fmtDisplay w))) ?_)
    (safeStr_of_not_mem (not_mem_fmtDisplay h))) ?_
  all_goals exact ⟨by decide, by decide⟩

theorem safeStr_textItemSvg (item : TextItem) : safeStr (textItemSvg item) := by
  unfold textItemSvg
  split
  · exact safeStr_nil
  · refine safeStr_append (safeStr_append (safeStr_append (safeStr_append
      (safeStr_append (safeStr_append (safeStr_append (safeStr_append ?_
      (safeStr_of_not_mem (not_mem_fmt2 _))) ?_)
      (safeStr_of_not_mem (not_mem_fmt2 _))) ?_)
      (safeStr_of_not_mem (not_mem_fmt2 _))) ?_)
      (safeStr_of_not_mem (not_mem_encodeText _))) ?_
    all_goals exact ⟨by decide, by decide⟩

theorem safeStr_charTspan (cp : CharPosition) : safeStr (charTspan cp) := by
  unfold charTspan
  split
  · exact safeStr_nil
  · refine safeStr_append (safeStr_append (safeStr_append (safeStr_append ?_
      (safeStr_of_not_mem (not_mem_fmt2 _))) ?_)
      (safeStr_of_not_mem (not_mem_encodeText _))) ?_
    all_goals exact ⟨by decide, by decide⟩

theorem safeStr_textItemSvgChars (item : TextItem) : safeStr (textItemSvgChars item) := by
  unfold textItemSvgChars
  split
  · exact safeStr_nil
  · split
    · refine safeStr_append (safeStr_append (safeStr_append (safeStr_append
        (safeStr_append (safeStr_append ?_
        (safeStr_of_not_mem (not_mem_fmt2 _))) ?_)
        (safeStr_of_not_mem (not_mem_fmt2 _))) ?_)
        (safeStr_flatMap _ _ fun cp _ => safeStr_charTspan cp)) ?_
      all_goals exact ⟨by decide, by decide⟩
    · refine safeStr_append (safeStr_append (safeStr_append (safeStr_append
        (safeStr_append (safeStr_append (safeStr_append (safeStr_append ?_
        (safeStr_of_not_mem (not_mem_fmt2 _))) ?_)
        (safeStr_of_not_mem (not_mem_fmt2 _))) ?_)
        (safeStr_of_not_mem (not_mem_fmt2 _))) ?_)
        (safeStr_of_not_mem (not_mem_encodeText _))) ?_
      all_goals exact ⟨by decide, by decide⟩

theorem safeStr_generate_svg (tl : TextLayer) : safeStr (generate_svg tl) := by
  unfold generate_svg
  refine safeStr_append (safeStr_append (safeStr_append (safeStr_svgHeader _ _) ?_)
    (safeStr_flatMap _ _ fun x _ => safeStr_textItemSvg x)) ?_
  all_goals exact ⟨by decide, by decide⟩

theorem safeStr_generate_svg_with_chars (tl : TextLayer) :
    safeStr (generate_svg_with_chars tl) := by
  unfold generate_svg_with_chars
  refine safeStr_append (safeStr_append (safeStr_append (safeStr_svgHeader _ _) ?_)
    (safeStr_flatMap _ _ fun x _ => safeStr_textItemSvgChars x)) ?_
  all_goals exact ⟨by decide, by decide⟩

/-! ## Sanitizing and escaping transport infixes -/

theorem sanitize_infix {pat t : List Char} (hp : sanitize_for_xml pat = pat)
    (h : pat <:+: t) : pat <:+: sanitize_for_xml t := by
  obtain ⟨s, u, rfl⟩ := h
  refine ⟨sanitize_for_xml s, sanitize_for_xml u, ?_⟩
  unfold sanitize_for_xml at hp ⊢
  simp only [List.filter_append]
  rw [hp]

theorem encode_infix {pat t : List Char} (h : pat <:+: t) :
    encodeText pat <:+: encodeText t := by
  obtain ⟨s, u, rfl⟩ := h
  refine ⟨encodeText s, encodeText u, ?_⟩
  unfold encodeText
  simp [List.flatMap_append]

theorem trimEmpty_false_of_mem {t : List Char} {c : Char} (hc : c ∈ t)
    (hw : c.isWhitespace = false) : trimEmpty t = false := by
  unfold trimEmpty
  rw [List.all_eq_false]
  exact ⟨c, hc, by simp [hw]⟩

/-! ## Concrete evaluation of the formatters -/

theorem fmt2_eval {q : Rat} {n : Nat} (h : round2 q = (n : Int)) : fmt2 q = fmt2Mag n := by
  unfold fmt2
  rw [h, if_neg (not_lt.mpr (Int.natCast_nonneg n))]
  simp

theorem fmtDisplay_612 : fmtDisplay (612 : Rat) = strLit "612" := by decide

theorem fmtDisplay_792 : fmtDisplay (792 : Rat) = strLit "792" := by decide

theorem fmt2_72 : fmt2 (72 : Rat) = strLit "72.00" := by
  rw [fmt2_eval (show round2 (72 : Rat) = ((7200 : Nat) : Int) by unfold round2; norm_num)]
  decide

theorem fmt2_12 : fmt2 (12 : Rat) = strLit "12.00" := by
  rw [fmt2_eval (show round2 (12 : Rat) = ((1200 : Nat) : Int) by unfold round2; norm_num)]
  decide

theorem fmt2_hello_baseline :
    fmt2 ((72 : Rat) + (12 : Rat) * (0.85 : Rat)) = strLit "82.20" := by
  rw [fmt2_eval (show round2 ((72 : Rat) + (12 : Rat) * (0.85 : Rat)) = ((8220 : Nat) : Int) by
    unfold round2; norm_num)]
  decide

theorem svgHeader_hello :
    svgHeader (612 : Rat) (792 : Rat) =
      strLit "<svg xmlns=\"http://www.w3.org/2000/svg\" viewBox=\"0 0 612 792\" preserveAspectRatio=\"none\">" := by
  unfold svgHeader
  rw [fmtDisplay_612, fmtDisplay_792]
  decide

theorem textItemSvg_hello :
    textItemSvg helloItem =
      strLit "<text x=\"72.00\" y=\"82.20\" font-size=\"12.00\">Hello</text>" := by
  show (if trimEmpty (strLit "Hello") then [] else
    strLit "<text x=\"" ++ fmt2 (72 : Rat) ++ strLit "\" y=\"" ++
      fmt2 ((72 : Rat) + (12 : Rat) * (0.85 : Rat)) ++ strLit "\" font-size=\"" ++
      fmt2 (12 : Rat) ++ strLit "\">" ++
      encodeText (sanitize_for_xml (strLit "Hello")) ++ strLit "</text>") = _
  rw [if_neg (by decide), fmt2_72, fmt2_hello_baseline, fmt2_12]
  decide

theorem gen_hello_eq :
    generate_svg helloLayer =
      strLit "<svg xmlns=\"http://www.w3.org/2000/svg\" viewBox=\"0 0 612 792\" preserveAspectRatio=\"none\"><style>text \x7b fill: transparent; user-select: text; cursor: text; \x7d</style><text x=\"72.00\" y=\"82.20\" font-size=\"12.00\">Hello</text></svg>" := by
  show svgHeader (612 : Rat) (792 : Rat) ++ svgStyle ++
      List.flatMap [helloItem] textItemSvg ++ strLit "</svg>" = _
  rw [svgHeader_hello, List.flatMap_cons, List.flatMap_nil, textItemSvg_hello]
  decide

/-! ## Lemmas about the transport mapping -/

theorem serviceCall_unavailable {α : Type} (t : Transport (Except PdfParseError α))
    (h : transportFailed t) : actorUnavailable (serviceCall t) := by
  rcases h with h | h
  · refine ⟨"channel closed", Or.inl ?_⟩
    simp [serviceCall, h]
  · by_cases hs : t.sendOk = true
    · refine ⟨"channel closed", Or.inr ?_⟩
      simp [serviceCall, h, hs]
    · refine ⟨"channel closed", Or.inl ?_⟩
      simp [serviceCall, hs]

theorem serviceCallPlain_unavailable {α : Type} (t : Transport α)
    (h : transportFailed t) : actorUnavailable (serviceCallPlain t) := by
  rcases h with h | h
  · refine ⟨"channel closed", Or.inl ?_⟩
    simp [serviceCallPlain, h]
  · by_cases hs : t.sendOk = true
    · refine ⟨"channel closed", Or.inr ?_⟩
      simp [serviceCallPlain, h, hs]
    · refine ⟨"channel closed", Or.inl ?_⟩
      simp [serviceCallPlain, hs]

theorem new_emptyState (env : PdfEnv) (s0 : PdfActor) (h : PdfActor.new env = .ok s0) :
    s0.parsers = [] ∧ s0.pdfs = [] := by
  unfold PdfActor.new at h
  split at h
  · cases h
  · injection h with h2
    subst h2
    exact ⟨rfl, rfl⟩

/-! ## Claim C1 -/

/-- C1, counterexample: in an environment where every binding candidate
fails, `PdfService::start` still returns `Ok` with a handle — the
initialization error arises only inside the spawned actor thread
(`PdfActor::new`) and is logged, never returned by `start`. -/
theorem c1_start_cex :
    allBindsFail envAllBindsFail ∧ PdfService.start envAllBindsFail = .ok {} :=
  ⟨⟨⟨"lib not found", rfl⟩, ⟨"lib not found", rfl⟩, ⟨"lib not found", rfl⟩,
    ⟨"lib not found", rfl⟩⟩, rfl⟩

/-- C1, amended: if every candidate of the binding fallback chain fails,
`PdfActor::new` returns the initialization error and no actor is produced;
`PdfService::start` itself nonetheless returns `Ok` with a handle. -/
theorem c1_amended (env : PdfEnv) (h : allBindsFail env) :
    (∃ msg, PdfActor.new env = .error (.InitError msg)) ∧
      PdfService.start env = .ok {} := by
  obtain ⟨⟨e1, h1⟩, ⟨e2, h2⟩, ⟨e3, h3⟩, ⟨e4, h4⟩⟩ := h
  refine ⟨⟨e4, ?_⟩, rfl⟩
  unfold PdfActor.new bindChain
  rw [h1, h2, h3, h4]

/-- Witness for the amended C1. -/
theorem c1_amended_wit :
    (∃ msg, PdfActor.new envAllBindsFail = .error (.InitError msg)) ∧
      PdfService.start envAllBindsFail = .ok {} :=
  c1_amended envAllBindsFail
    ⟨⟨"lib not found", rfl⟩, ⟨"lib not found", rfl⟩, ⟨"lib not found", rfl⟩,
      ⟨"lib not found", rfl⟩⟩

/-! ## Claim C2 -/

/-- C2: for every public operation of the service handle, a transport-level
failure (job-queue send failed, or reply channel dropped) surfaces as the
"actor unavailable" class of errors (`SendError`/`RecvError`), which is
distinct from every resource-level `ParseError`; in particular a call made
after the actor has shut down (queue closed, or queued reply sender dropped)
gets such an error rather than a resource error. -/
theorem c2_transport_errors :
    (∀ (data : List Nat) (bookId : String) (t : Transport (Except PdfParseError ParsedPdf)),
       transportFailed t → actorUnavailable (PdfService.parse_from_bytes data bookId t)) ∧
    (∀ (path bookId : String) (t : Transport (Except PdfParseError ParsedPdf)),
       transportFailed t → actorUnavailable (PdfService.parse_from_path path bookId t)) ∧
    (∀ (bookId : String) (request : PageRenderRequest)
       (t : Transport (Except PdfParseError (List Nat))),
       transportFailed t → actorUnavailable (PdfService.render_page bookId request t)) ∧
    (∀ (bookId : String) (page : Nat) (maxSize : Nat)
       (t : Transport (Except PdfParseError (List Nat))),
       transportFailed t → actorUnavailable (PdfService.render_thumbnail bookId page maxSize t)) ∧
    (∀ (bookId : String) (page : Nat) (t : Transport (Except PdfParseError TextLayer)),
       transportFailed t → actorUnavailable (PdfService.get_text_layer bookId page t)) ∧
    (∀ (bookId query : String) (limit : Nat)
       (t : Transport (Except PdfParseError (List PdfSearchResult))),
       transportFailed t → actorUnavailable (PdfService.search bookId query limit t)) ∧
    (∀ (bookId : String) (page : Nat) (t : Transport (Except PdfParseError String)),
       transportFailed t → actorUnavailable (PdfService.get_page_text bookId page t)) ∧
    (∀ (bookId : String) (page : Nat) (t : Transport (Except PdfParseError PageDimensions)),
       transportFailed t → actorUnavailable (PdfService.get_page_dimensions bookId page t)) ∧
    (∀ (bookId : String) (t : Transport Bool),
       transportFailed t → actorUnavailable (PdfService.has_pdf bookId t)) ∧
    (∀ (bookId : String) (t : Transport Unit),
       transportFailed t → actorUnavailable (PdfService.remove_pdf bookId t)) ∧
    (∀ t : Transport (List String),
       transportFailed t → actorUnavailable (PdfService.list_pdfs t)) ∧
    (∀ t : Transport Unit,
       transportFailed t → actorUnavailable (PdfService.shutdown t)) ∧
    (∀ (m : String) (e : PdfParseError),
       PdfServiceError.SendError m ≠ PdfServiceError.ParseError e ∧
       PdfServiceError.RecvError m ≠ PdfServiceError.ParseError e) := by
  refine ⟨?_, ?_, ?_, ?_, ?_, ?_, ?_, ?_, ?_, ?_, ?_, ?_, ?_⟩
  · exact fun _ _ t ht => serviceCall_unavailable t ht
  · exact fun _ _ t ht => serviceCall_unavailable t ht
  · exact fun _ _ t ht => serviceCall_unavailable t ht
  · exact fun _ _ _ t ht => serviceCall_unavailable t ht
  · exact fun _ _ t ht => serviceCall_unavailable t ht
  · exact fun _ _ _ t ht => serviceCall_unavailable t ht
  · exact fun _ _ t ht => serviceCall_unavailable t ht
  · exact fun _ _ t ht => serviceCall_unavailable t ht
  · exact fun _ t ht => serviceCallPlain_unavailable t ht
  · exact fun _ t ht => serviceCallPlain_unavailable t ht
  · exact fun t ht => serviceCallPlain_unavailable t ht
  · exact fun t ht => serviceCallPlain_unavailable t ht
  · exact fun m e => ⟨nofun, nofun⟩

/-- Witness for C2: a closed queue maps to `SendError`, a dropped reply
channel maps to `RecvError`. -/
theorem c2_transport_errors_wit :
    actorUnavailable (PdfService.parse_from_bytes [] "b" { sendOk := false, recv := none }) ∧
    actorUnavailable (PdfService.shutdown { sendOk := true, recv := none }) :=
  ⟨c2_transport_errors.1 [] "b" { sendOk := false, recv := none } (Or.inl rfl),
   c2_transport_errors.2.2.2.2.2.2.2.2.2.2.2.1 { sendOk := true, recv := none } (Or.inr rfl)⟩

/-! ## Claim C3 -/

/-- C3: on a key absent from the registry every data-returning handler
answers the "PDF {key} not loaded" error, `HasPdf` answers `false` (not an
error), and `RemovePdf` is a successful no-op that leaves the state
unchanged. -/
theorem c3_missing_key (s : PdfActor) (k : String) (env : PdfEnv)
    (req : PageRenderRequest) (page maxSize limit : Nat) (query : String)
    (hp : mapGet s.parsers k = none) (hq : mapGet s.pdfs k = none) :
    s.handle_render_page k req = .error (notLoadedErr k) ∧
    s.handle_render_thumbnail k page maxSize = .error (notLoadedErr k) ∧
    s.handle_get_text_layer k page = .error (notLoadedErr k) ∧
    s.handle_get_page_text k page = .error (notLoadedErr k) ∧
    s.handle_get_page_dimensions k page = .error (notLoadedErr k) ∧
    s.handle_search k query limit = .error (notLoadedErr k) ∧
    PdfActor.step env s (.hasPdf k) = (s, .boolean false, true) ∧
    PdfActor.step env s (.removePdf k) = (s, .unit, true) := by
  refine ⟨?_, ?_, ?_, ?_, ?_, ?_, ?_, ?_⟩
  · simp [PdfActor.handle_render_page, hp]
  · simp [PdfActor.handle_render_thumbnail, hp]
  · simp [PdfActor.handle_get_text_layer, hp]
  · simp [PdfActor.handle_get_page_text, hp]
  · simp [PdfActor.handle_get_page_dimensions, hp]
  · simp [PdfActor.handle_search, hp]
  · simp [PdfActor.step, hp]
  · show ({ s with parsers := mapRemove s.parsers k, pdfs := mapRemove s.pdfs k },
      PdfReply.unit, true) = (s, PdfReply.unit, true)
    rw [mapRemove_of_absent _ _ hp, mapRemove_of_absent _ _ hq]

/-- Witness for C3 on the empty registry. -/
theorem c3_missing_key_wit :
    actorEmpty.handle_render_page "missing" { page := 0 } = .error (notLoadedErr "missing") ∧
    actorEmpty.handle_render_thumbnail "missing" 0 0 = .error (notLoadedErr "missing") ∧
    actorEmpty.handle_get_text_layer "missing" 0 = .error (notLoadedErr "missing") ∧
    actorEmpty.handle_get_page_text "missing" 0 = .error (notLoadedErr "missing") ∧
    actorEmpty.handle_get_page_dimensions "missing" 0 = .error (notLoadedErr "missing") ∧
    actorEmpty.handle_search "missing" "q" 0 = .error (notLoadedErr "missing") ∧
    PdfActor.step envOk actorEmpty (.hasPdf "missing") = (actorEmpty, .boolean false, true) ∧
    PdfActor.step envOk actorEmpty (.removePdf "missing") = (actorEmpty, .unit, true) :=
  c3_missing_key actorEmpty "missing" envOk { page := 0 } 0 0 0 "q" rfl rfl

/-! ## Claim C4 -/

/-- C4: a successful open under an already-used key replaces the previous
entry: afterwards both registry maps hold exactly the handle and metadata of
the replacing open, and every data-returning handler under that key consults
only the new handle. -/
theorem c4_replacing_open (env : PdfEnv) (s : PdfActor) (k : String) (data : List Nat)
    (path : String) (p2 : PdfParser) (pdf2 : ParsedPdf)
    (hb : env.fromBytesWithPdfium data k s.pdfium = .ok p2)
    (hq : env.fromPathWithPdfium path k s.pdfium = .ok p2)
    (hp : p2.parseResult = .ok pdf2) :
    ((s.handle_parse_from_bytes env data k).2 = .ok pdf2 ∧
     mapGet (s.handle_parse_from_bytes env data k).1.parsers k = some p2 ∧
     mapGet (s.handle_parse_from_bytes env data k).1.pdfs k = some pdf2 ∧
     (∀ req, (s.handle_parse_from_bytes env data k).1.handle_render_page k req =
        p2.renderPageFn req) ∧
     (∀ page maxSize, (s.handle_parse_from_bytes env data k).1.handle_render_thumbnail
        k page maxSize = p2.renderThumbnailFn page maxSize) ∧
     (∀ page, (s.handle_parse_from_bytes env data k).1.handle_get_text_layer k page =
        p2.getTextLayerFn page) ∧
     (∀ query limit, (s.handle_parse_from_bytes env data k).1.handle_search k query limit =
        p2.searchFn query limit) ∧
     (∀ page, (s.handle_parse_from_bytes env data k).1.handle_get_page_text k page =
        p2.getPageTextFn page) ∧
     (∀ page, (s.handle_parse_from_bytes env data k).1.handle_get_page_dimensions k page =
        p2.getPageDimensionsFn page)) ∧
    (mapGet (s.handle_parse_from_path env path k).1.parsers k = some p2 ∧
     mapGet (s.handle_parse_from_path env path k).1.pdfs k = some pdf2) := by
  have hstate : s.handle_parse_from_bytes env data k =
      ({ s with parsers := mapInsert s.parsers k p2, pdfs := mapInsert s.pdfs k pdf2 },
        .ok pdf2) := by
    simp only [PdfActor.handle_parse_from_bytes, hb, hp]
  have hstate2 : s.handle_parse_from_path env path k =
      ({ s with parsers := mapInsert s.parsers k p2, pdfs := mapInsert s.pdfs k pdf2 },
        .ok pdf2) := by
    simp only [PdfActor.handle_parse_from_path, hq, hp]
  rw [hstate, hstate2]
  refine ⟨⟨rfl, mapGet_mapInsert_self _ _ _, mapGet_mapInsert_self _ _ _,
    ?_, ?_, ?_, ?_, ?_, ?_⟩,
    ⟨mapGet_mapInsert_self _ _ _, mapGet_mapInsert_self _ _ _⟩⟩
  · intro req
    simp [PdfActor.handle_render_page, mapGet_mapInsert_self]
  · intro page maxSize
    simp [PdfActor.handle_render_thumbnail, mapGet_mapInsert_self]
  · intro page
    simp [PdfActor.handle_get_text_layer, mapGet_mapInsert_self]
  · intro query limit
    simp [PdfActor.handle_search, mapGet_mapInsert_self]
  · intro page
    simp [PdfActor.handle_get_page_text, mapGet_mapInsert_self]
  · intro page
    simp [PdfActor.handle_get_page_dimensions, mapGet_mapInsert_self]

/-- Witness for C4: key `k` starts bound to a one-page document; opening
two-byte content rebinds it to the two-page handle and metadata. -/
theorem c4_replacing_open_wit :
    (stateWithA.handle_parse_from_bytes envOk [9, 9] "k").2 = .ok { id := "k", pageCount := 2 } ∧
    mapGet (stateWithA.handle_parse_from_bytes envOk [9, 9] "k").1.parsers "k" =
      some (sampleParser 2 "k" pdfiumZero) ∧
    mapGet (stateWithA.handle_parse_from_bytes envOk [9, 9] "k").1.pdfs "k" =
      some { id := "k", pageCount := 2 } :=
  have h := c4_replacing_open envOk stateWithA "k" [9, 9] "xy"
    (sampleParser 2 "k" pdfiumZero) { id := "k", pageCount := 2 } rfl rfl rfl
  ⟨h.1.1, h.1.2.1, h.1.2.2.1⟩

/-! ## Claim C5 -/

/-- C5: from the state `PdfActor::new` produces, every job sequence leaves
the registry in a state where the Derived Metadata map and the Open Handle
map hold exactly the same keys — opens insert into both, removes delete
from both, failures touch neither. -/
theorem c5_registry_consistent (env : PdfEnv) (s0 : PdfActor) (jobs : List PdfJob)
    (h : PdfActor.new env = .ok s0) : regInv (PdfActor.runJobs env s0 jobs).1 := by
  have h0 : regInv s0 := by
    intro k
    rw [(new_emptyState env s0 h).1, (new_emptyState env s0 h).2]
    rfl
  exact regInv_runJobs env s0 jobs h0

/-- Witness for C5 on a concrete job sequence. -/
theorem c5_registry_consistent_wit :
    regInv (PdfActor.runJobs envOk actorEmpty jobsSample).1 :=
  c5_registry_consistent envOk actorEmpty jobsSample rfl

/-! ## Claim C6 -/

/-- C6: `HasPdf` answers exactly whether the key is in the parser registry —
false in the fresh state, true immediately after a successful open, false
immediately after a remove — and `ListPdfs` answers exactly the keys of the
registry: a key is listed iff `HasPdf` on it is true. -/
theorem c6_haskey_listkeys (env : PdfEnv) (s : PdfActor) (k : String) :
    PdfActor.step env s (.hasPdf k) = (s, .boolean ((mapGet s.parsers k).isSome), true) ∧
    (∀ (env2 : PdfEnv) (s0 : PdfActor), PdfActor.new env2 = .ok s0 →
       (mapGet s0.parsers k).isSome = false) ∧
    (∀ (data : List Nat) (p : PdfParser) (pdf : ParsedPdf),
       env.fromBytesWithPdfium data k s.pdfium = .ok p → p.parseResult = .ok pdf →
       (mapGet (s.handle_parse_from_bytes env data k).1.parsers k).isSome = true) ∧
    (mapGet (PdfActor.step env s (.removePdf k)).1.parsers k).isSome = false ∧
    PdfActor.step env s .listPdfs = (s, .ids (mapKeys s.parsers), true) ∧
    (∀ j, j ∈ mapKeys s.parsers ↔ (mapGet s.parsers j).isSome) := by
  refine ⟨rfl, ?_, ?_, ?_, rfl, fun j => mem_mapKeys_iff s.parsers j⟩
  · intro env2 s0 h0
    rw [(new_emptyState env2 s0 h0).1]
    rfl
  · intro data p pdf hb hp
    simp only [PdfActor.handle_parse_from_bytes, hb, hp]
    rw [mapGet_mapInsert_self]
    rfl
  · show (mapGet (mapRemove s.parsers k) k).isSome = false
    rw [mapGet_mapRemove_self]
    rfl

/-- Witness for C6. -/
theorem c6_haskey_listkeys_wit :
    (mapGet actorEmpty.parsers "a").isSome = false ∧
    (mapGet (actorEmpty.handle_parse_from_bytes envOk [7] "a").1.parsers "a").isSome = true ∧
    (mapGet (PdfActor.step envOk actorEmpty (.removePdf "a")).1.parsers "a").isSome = false ∧
    ("a" ∈ mapKeys actorEmpty.parsers ↔ (mapGet actorEmpty.parsers "a").isSome) :=
  have h := c6_haskey_listkeys envOk actorEmpty "a"
  ⟨h.2.1 envOk actorEmpty rfl,
   h.2.2.1 [7] (sampleParser 1 "a" pdfiumZero) { id := "a", pageCount := 1 } rfl rfl,
   h.2.2.2.1, h.2.2.2.2.2 "a"⟩

/-! ## Claim C7 -/

/-- C7: the actor loop exits only when the queue is closed (end of input:
all handles dropped) or upon dispatching `Shutdown` (which sends its
acknowledgement first); after any other job — in particular one whose
operation failed — the loop continues with the remaining jobs. -/
theorem c7_loop_exit_policy (env : PdfEnv) (s : PdfActor) :
    PdfActor.runJobs env s [] = (s, []) ∧
    (∀ rest, PdfActor.runJobs env s (PdfJob.shutdown :: rest) = (s, [PdfReply.unit])) ∧
    (∀ (j : PdfJob) (rest : List PdfJob), j ≠ PdfJob.shutdown →
      PdfActor.runJobs env s (j :: rest) =
        ((PdfActor.runJobs env (PdfActor.step env s j).1 rest).1,
          (PdfActor.step env s j).2.1 ::
            (PdfActor.runJobs env (PdfActor.step env s j).1 rest).2)) :=
  ⟨runJobs_nil env s, fun rest => runJobs_shutdown env s rest,
    fun j rest h => runJobs_cons_of_ne env s j rest h⟩

/-- Witness for C7: a failing render job does not stop the loop; the
following shutdown does. -/
theorem c7_loop_exit_policy_wit :
    PdfActor.runJobs envOk actorEmpty
        [PdfJob.renderPage "m" { page := 0 }, PdfJob.shutdown] =
      (actorEmpty, [PdfReply.bytes (.error (notLoadedErr "m")), PdfReply.unit]) := by
  rw [(c7_loop_exit_policy envOk actorEmpty).2.2 (PdfJob.renderPage "m" { page := 0 })
    [PdfJob.shutdown] (by simp)]
  rfl

/-! ## Claim C10 -/

/-- C10: a failed open (parser construction or parse error) is atomic with
respect to the registry: the handler returns the error and the state
unchanged, so any prior entry under the same key is untouched. -/
theorem c10_open_atomic (env : PdfEnv) (s : PdfActor) (data : List Nat) (path k : String)
    (e : PdfParseError) :
    (env.fromBytesWithPdfium data k s.pdfium = .error e →
       s.handle_parse_from_bytes env data k = (s, .error e)) ∧
    (∀ p : PdfParser, env.fromBytesWithPdfium data k s.pdfium = .ok p →
       p.parseResult = .error e → s.handle_parse_from_bytes env data k = (s, .error e)) ∧
    (env.fromPathWithPdfium path k s.pdfium = .error e →
       s.handle_parse_from_path env path k = (s, .error e)) ∧
    (∀ p : PdfParser, env.fromPathWithPdfium path k s.pdfium = .ok p →
       p.parseResult = .error e → s.handle_parse_from_path env path k = (s, .error e)) := by
  refine ⟨?_, ?_, ?_, ?_⟩
  · intro h
    simp only [PdfActor.handle_parse_from_bytes, h]
  · intro p h1 h2
    simp only [PdfActor.handle_parse_from_bytes, h1, h2]
  · intro h
    simp only [PdfActor.handle_parse_from_path, h]
  · intro p h1 h2
    simp only [PdfActor.handle_parse_from_path, h1, h2]

/-- Witness for C10: a failed open leaves the prior binding of `k` exactly
as it was. -/
theorem c10_open_atomic_wit :
    stateWithA.handle_parse_from_bytes envAllBindsFail [] "k" =
      (stateWithA, .error (.OtherError "engine unavailable")) :=
  (c10_open_atomic envAllBindsFail stateWithA [] "p" "k" (.OtherError "engine unavailable")).1 rfl

/-! ## Claim C8 -/

/-- C8: on the spec's example layer (one `Hello` span at `(72, 72)`, font
size 12, page `612 x 792`) the generated SVG contains the dimension pair
`612 792` and a positioned text element whose content is the escaped,
control-character-free copy of `Hello`; and whenever any input span's text
contains `<script>`, the output contains the escaped form `&lt;script&gt;`
and never the raw `<script>` substring. -/
theorem c8_svg_hello_and_script :
    strLit "612 792" <:+: generate_svg helloLayer ∧
    strLit "<text x=\"72.00\" y=\"82.20\" font-size=\"12.00\">Hello</text>" <:+:
      generate_svg helloLayer ∧
    (∀ (tl : TextLayer) (item : TextItem), item ∈ tl.items →
       strLit "<script>" <:+: item.text →
       strLit "&lt;script&gt;" <:+: generate_svg tl) ∧
    (∀ tl : TextLayer, ¬ strLit "<script>" <:+: generate_svg tl) := by
  refine ⟨?_, ?_, ?_, ?_⟩
  · rw [gen_hello_eq]
    decide
  · rw [gen_hello_eq]
    decide
  · intro tl item hmem hscript
    have h1 : strLit "<script>" <:+: sanitize_for_xml item.text :=
      sanitize_infix (by decide) hscript
    have h2 : strLit "&lt;script&gt;" <:+: encodeText (sanitize_for_xml item.text) := by
      have h3 := encode_infix h1
      rwa [show encodeText (strLit "<script>") = strLit "&lt;script&gt;" from by decide] at h3
    have hws : trimEmpty item.text = false :=
      trimEmpty_false_of_mem (hscript.subset (show '<' ∈ strLit "<script>" by decide))
        (by decide)
    have h4 : encodeText (sanitize_for_xml item.text) <:+: textItemSvg item := by
      unfold textItemSvg
      rw [hws, if_neg (by decide)]
      exact infix_append_drop_right ((List.suffix_append _ _).isInfix)
    have h5 : textItemSvg item <:+: generate_svg tl := by
      unfold generate_svg
      exact infix_append_drop_right
        (infix_append_drop_left (flatMap_infix_of_mem textItemSvg hmem))
    exact h2.trans (h4.trans h5)
  · intro tl h
    exact (safeStr_generate_svg tl).1
      ((show ltsc <+: strLit "<script>" by decide).isInfix.trans h)

/-- Witness for C8: the escaped form appears and the raw form does not, on a
concrete layer whose span text contains `<script>`. -/
theorem c8_svg_hello_and_script_wit :
    strLit "&lt;script&gt;" <:+: generate_svg scriptLayer ∧
    ¬ strLit "<script>" <:+: generate_svg scriptLayer :=
  ⟨c8_svg_hello_and_script.2.2.1 scriptLayer scriptItem (List.mem_singleton.mpr rfl)
     (by decide),
   c8_svg_hello_and_script.2.2.2 scriptLayer⟩

/-! ## Claim C9 -/

/-- C9: the overlay generator skips whitespace-only spans entirely; for an
emitted span it strips disallowed control characters before escaping the
reserved markup characters (so the emitted content is control-free); it
places the span at baseline `y + font_size * 0.85`; and when character-level
positions are present it emits one positioned tspan per surviving character
instead of a single element for the span. -/
theorem c9_generator_contract :
    (∀ item : TextItem, trimEmpty item.text = true →
       textItemSvg item = [] ∧ textItemSvgChars item = []) ∧
    (∀ item : TextItem, trimEmpty item.text = false → item.charPositions = none →
       textItemSvgChars item =
         strLit "<text x=\"" ++ fmt2 item.x ++ strLit "\" y=\"" ++
           fmt2 (item.y + item.fontSize * (0.85 : Rat)) ++ strLit "\" font-size=\"" ++
           fmt2 item.fontSize ++ strLit "\">" ++
           encodeText (sanitize_for_xml item.text) ++ strLit "</text>") ∧
    (∀ (item : TextItem) (cps : List CharPosition), trimEmpty item.text = false →
       item.charPositions = some cps →
       textItemSvgChars item =
         strLit "<text y=\"" ++ fmt2 (item.y + item.fontSize * (0.85 : Rat)) ++
           strLit "\" font-size=\"" ++ fmt2 item.fontSize ++ strLit "\">" ++
           cps.flatMap charTspan ++ strLit "</text>" ∧
       (∀ cp ∈ cps, sanitize_for_xml [cp.char] ≠ [] →
          charTspan cp = strLit "<tspan x=\"" ++ fmt2 cp.x ++ strLit "\">" ++
            encodeText (sanitize_for_xml [cp.char]) ++ strLit "</tspan>") ∧
       (∀ cp ∈ cps, sanitize_for_xml [cp.char] = [] → charTspan cp = [])) ∧
    (∀ (t : List Char) (c : Char), c ∈ encodeText (sanitize_for_xml t) →
       c = '\t' ∨ c = '\n' ∨ c = '\r' ∨ ' ' ≤ c) := by
  refine ⟨?_, ?_, ?_, ?_⟩
  · intro item h
    constructor
    · unfold textItemSvg
      rw [h, if_pos rfl]
    · unfold textItemSvgChars
      rw [h, if_pos rfl]
  · intro item h1 h2
    unfold textItemSvgChars
    rw [h1, if_neg (by decide), h2]
  · intro item cps h1 h2
    refine ⟨?_, ?_, ?_⟩
    · unfold textItemSvgChars
      rw [h1, if_neg (by decide), h2]
    · intro cp _ hne
      unfold charTspan
      rw [if_neg hne]
    · intro cp _ he
      unfold charTspan
      rw [if_pos he]
  · intro t c hc
    unfold encodeText at hc
    obtain ⟨d, hd, hcd⟩ := List.mem_flatMap.mp hc
    have hdk := (List.mem_filter.mp hd).2
    unfold encodeTextChar at hcd
    split at hcd
    · exact Or.inr (Or.inr (Or.inr
        ((show ∀ x ∈ strLit "&amp;", ' ' ≤ x by decide) c hcd)))
    · split at hcd
      · exact Or.inr (Or.inr (Or.inr
          ((show ∀ x ∈ strLit "&lt;", ' ' ≤ x by decide) c hcd)))
      · split at hcd
        · exact Or.inr (Or.inr (Or.inr
            ((show ∀ x ∈ strLit "&gt;", ' ' ≤ x by decide) c hcd)))
        · rcases List.mem_cons.mp hcd with h4 | h4
          · subst h4
            simpa [or_assoc] using hdk
          · cases h4

/-- Witness for C9: the whitespace-only span emits nothing; the span with
character positions emits the per-character form; escaping a sanitized text
yields only allowed characters. -/
theorem c9_generator_contract_wit :
    (textItemSvg wsItem = [] ∧ textItemSvgChars wsItem = []) ∧
    textItemSvgChars charsItem =
      strLit "<text y=\"" ++ fmt2 (charsItem.y + charsItem.fontSize * (0.85 : Rat)) ++
        strLit "\" font-size=\"" ++ fmt2 charsItem.fontSize ++ strLit "\">" ++
        charsCps.flatMap charTspan ++ strLit "</text>" ∧
    charTspan { char := Char.ofNat 7, x := 33 } = [] ∧
    ('H' = '\t' ∨ 'H' = '\n' ∨ 'H' = '\r' ∨ ' ' ≤ 'H') :=
  ⟨c9_generator_contract.1 wsItem (by decide),
   (c9_generator_contract.2.2.1 charsItem charsCps (by decide) rfl).1,
   (c9_generator_contract.2.2.1 charsItem charsCps (by decide) rfl).2.2
     { char := Char.ofNat 7, x := 33 } (by decide) (by decide),
   c9_generator_contract.2.2.2 (strLit "H") 'H' (by decide)⟩
